import Mathlib

/-!
Verification of the JaneJase backend's OAuth login / session flow against its
specification.  The HTTP handlers (`google_callback`, `get_current_user`,
`health`) are embedded shallowly from `src/app/api/endpoints/auth.py` and
`src/app/api/endpoints/health.py`; the user-upsert service and the token codec
live in modules of this repository that are not under `src/`
(`app/services/auth_service.py`, `app/repositories/user_repo.py`), so they are
modelled from the spec where noted.
-/

namespace JaneJase

/-- A stored user row, following the spec's data model (§3) and the
`UserResponse` schema of `src/app/schemas/user.py`: an opaque identifier,
a unique required email, optional display name and picture, the OAuth
provider name and a creation timestamp (modelled as a natural number). -/
structure User where
  id : String
  email : String
  name : Option String
  picture : Option String
  provider : String
  created_at : Nat
deriving Repr, DecidableEq

/-- The user table: the only durable state of the flow. -/
abbrev DB := List User

/-- Modelled from the spec: the upsert service's lookup-by-email
(`app/services/auth_service.py` / `app/repositories/user_repo.py`
are not under `src/`). -/
def findByEmail (db : DB) (email : String) : Option User :=
  db.find? (fun u => u.email == email)

/-- Modelled from the spec: the read contract `find_by_id(id) -> User | absent`
of the upsert service (§4.3); the repository module is not under `src/`. -/
def find_by_id (db : DB) (id : String) : Option User :=
  db.find? (fun u => u.id == id)

/-- Modelled from the spec: `login_or_create(email, name, picture, provider)`
(§4.3) — look up by email; if absent, insert a new row with the given fields,
a generated identifier `newId` and creation timestamp `now`; if present,
return the existing row unchanged.  The implementing module
(`app/services/auth_service.py:login_or_register_oauth_user`) is not under
`src/`.  The handler passes `name` and `picture` as plain strings, which the
row stores as (non-null) values of its optional columns. -/
def login_or_create (db : DB) (newId : String) (now : Nat)
    (email name picture provider : String) : User × DB :=
  match findByEmail db email with
  | some u => (u, db)
  | none =>
      let u : User := ⟨newId, email, some name, some picture, provider, now⟩
      (u, u :: db)

/-- The spec's uniqueness invariant (§3): at most one stored row per email. -/
def atMostOnePerEmail (db : DB) : Prop :=
  db.Pairwise (fun u v => u.email ≠ v.email)

instance (db : DB) : Decidable (atMostOnePerEmail db) :=
  inferInstanceAs (Decidable (db.Pairwise _))

/-- The write parameters of one completed OAuth callback, as passed to the
upsert service. -/
structure UpsertOp where
  newId : String
  now : Nat
  email : String
  name : String
  picture : String
  provider : String
deriving Repr, DecidableEq

/-- Apply one storage-level upsert (§5: the at-most-one-row-per-email guarantee
is enforced at the storage layer, so each upsert is atomic there). -/
def applyUpsert (db : DB) (op : UpsertOp) : DB :=
  (login_or_create db op.newId op.now op.email op.name op.picture op.provider).2

/-- A serialization of the storage-level effects of any number of completed
callbacks, concurrent ones included: the storage layer executes the atomic
upserts in some order, captured by the list `ops`. -/
def runUpserts (db : DB) (ops : List UpsertOp) : DB :=
  ops.foldl applyUpsert db

/-- Modelled from the spec: the Token Codec (§4.1) signs a subject/expiry pair
with a process-wide secret.  The source's signing primitive (an HMAC inside
the JWT library used by `app/services/auth_service.py`, not under `src/`) is
abstracted as a deterministic keyed function of the signed fields. -/
def sign (secret : Nat) (sub : String) (exp : Nat) : Nat :=
  secret * 1000003 + sub.length * 65599 + exp

/-- A signed token: subject identifier, expiry timestamp and signature
(spec §3, "Token"). -/
structure Token where
  sub : String
  exp : Nat
  sig : Nat
deriving Repr, DecidableEq

/-- Modelled from the spec: `issue(subject) -> token` (§4.1) — a signed value
embedding the subject and an expiry computed from a fixed validity `window`
added to the issuance time `now` (`create_access_token` in
`app/services/auth_service.py`, not under `src/`). -/
def issue (secret window now : Nat) (sub : String) : Token :=
  { sub := sub, exp := now + window, sig := sign secret sub (now + window) }

/-- Modelled from the spec: `verify(token) -> subject | failure` (§4.1) —
checks the signature and expiry at the current time `now`, returning the
subject on success and a failure (`none`) on signature mismatch or expiry
(`verify_token` in `app/services/auth_service.py`, not under `src/`). -/
def verify (secret now : Nat) (t : Token) : Option String :=
  if t.sig = sign secret t.sub t.exp ∧ now < t.exp then some t.sub else none

/-- Compact string form of a token as it appears in the redirect URL. -/
def encodeToken (t : Token) : String :=
  t.sub ++ "." ++ toString t.exp ++ "." ++ toString t.sig

/-- An HTTP outcome of the handlers of `src/app/api/endpoints/auth.py`:
a redirect response, a successful user payload, or an error status with
detail (FastAPI `HTTPException`). -/
inductive Response where
  | redirect (url : String)
  | ok (user : User)
  | error (status : Nat) (detail : String)
deriving Repr, DecidableEq

/-- `settings.FRONTEND_URL or "http://localhost:7010"` from
`src/app/api/endpoints/auth.py` lines 81 and 87: a missing or empty
configured URL falls back to the localhost default. -/
def frontendBase (f : Option String) : String :=
  match f with
  | some s => if s = "" then "http://localhost:7010" else s
  | none => "http://localhost:7010"

/-- Python `str()` of a FastAPI `HTTPException`: `"{status_code}: {detail}"`. -/
def httpExceptionStr (code : Nat) (detail : String) : String :=
  toString code ++ ": " ++ detail

/-- Python `str()` of a `KeyError` for key `k`: the repr `'k'`. -/
def keyErrorStr (k : String) : String :=
  "'" ++ k ++ "'"

/-- The profile dictionary returned by the IdP profile call
(`get_google_user_info`): each key may be absent. -/
structure Profile where
  email : Option String
  name : Option String
  picture : Option String
deriving Repr, DecidableEq

/-- The environment of one `/auth/callback/google` request: the outcome of
each fallible external step (`Except.error e` models a raised exception whose
`str()` is `e`), plus the generated identifier, the clock and the token-codec
configuration. -/
structure CallbackWorld where
  authorizeAccessToken : Except String (Option String)
  googleUserInfo : Except String Profile
  upsertError : Option String
  newId : String
  now : Nat
  secret : Nat
  window : Nat
deriving Repr

/-- `google_callback` from `src/app/api/endpoints/auth.py` lines 57-89:
exchange the code for an access token, fetch the profile, upsert the user,
issue a JWT and redirect to `{frontend}/auth/callback?token=...`; any raised
exception `e` is caught and answered with a redirect to
`{frontend}/login?error={str(e)}`.  A missing or falsy (empty) access token
raises `HTTPException(400, "Failed to get access token")`, itself caught by
the same handler; a profile without an email key raises `KeyError('email')`. -/
def google_callback (f : Option String) (w : CallbackWorld) (db : DB) :
    Response × DB :=
  match w.authorizeAccessToken with
  | .error e => (.redirect (frontendBase f ++ "/login?error=" ++ e), db)
  | .ok tokenOpt =>
    match tokenOpt with
    | none =>
        (.redirect (frontendBase f ++ "/login?error=" ++
          httpExceptionStr 400 "Failed to get access token"), db)
    | some accessToken =>
      if accessToken = "" then
        (.redirect (frontendBase f ++ "/login?error=" ++
          httpExceptionStr 400 "Failed to get access token"), db)
      else
        match w.googleUserInfo with
        | .error e => (.redirect (frontendBase f ++ "/login?error=" ++ e), db)
        | .ok profile =>
          match profile.email with
          | none =>
              (.redirect (frontendBase f ++ "/login?error=" ++
                keyErrorStr "email"), db)
          | some email =>
            match w.upsertError with
            | some e => (.redirect (frontendBase f ++ "/login?error=" ++ e), db)
            | none =>
              let r := login_or_create db w.newId w.now email
                (profile.name.getD "") (profile.picture.getD "") "google"
              let jwt := issue w.secret w.window w.now r.1.id
              (.redirect (frontendBase f ++ "/auth/callback?token=" ++
                encodeToken jwt), r.2)

/-- Whether the callback request fails at some step: token exchange raises,
the access token is absent or falsy, the profile fetch raises, the profile
has no email key, or the upsert raises. -/
def callbackFails (w : CallbackWorld) : Bool :=
  match w.authorizeAccessToken with
  | .error _ => true
  | .ok none => true
  | .ok (some accessToken) =>
    if accessToken = "" then true
    else
      match w.googleUserInfo with
      | .error _ => true
      | .ok profile =>
        match profile.email with
        | none => true
        | some _ => w.upsertError.isSome

/-- `auth_header.split(' ')[1]` from `src/app/api/endpoints/auth.py` line 120:
the second space-separated field of the header (guarded in the handler by the
`Bearer ` check, so the index exists there).  Python `split(' ')` splits on
every single space, keeping empty fields, which is `List.splitOn ' '` on the
character list. -/
def bearerToken (s : String) : String :=
  String.mk ((s.toList.splitOn ' ').getD 1 [])

/-- Python `s.startswith(p)`, on character lists. -/
def startsWith (s p : String) : Bool :=
  p.toList.isPrefixOf s.toList

/-- `get_current_user` from `src/app/api/endpoints/auth.py` lines 115-138:
401 when the Authorization header is absent, empty or lacks the `Bearer `
scheme; 401 when the extracted token does not verify to a truthy subject
(Python `if not user_id` also rejects an empty subject string); 404 when the
subject resolves to no stored user; otherwise the user row.  The token
verifier `vtok` (`auth_service.verify_token`, not under `src/`) is passed as
a function returning the subject or `none`. -/
def get_current_user (vtok : String → Option String) (db : DB)
    (authHeader : Option String) : Response :=
  match authHeader with
  | none => .error 401 "Missing or invalid authorization header"
  | some h =>
    if h = "" ∨ ¬ startsWith h "Bearer " then
      .error 401 "Missing or invalid authorization header"
    else
      match vtok (bearerToken h) with
      | none => .error 401 "Invalid or expired token"
      | some userId =>
        if userId = "" then .error 401 "Invalid or expired token"
        else
          match find_by_id db userId with
          | none => .error 404 "User not found"
          | some u => .ok u

/-- The response body of the health endpoint
(`src/app/schemas/common.py:Message`). -/
structure Message where
  message : String
deriving Repr, DecidableEq

/-- `health` from `src/app/api/endpoints/health.py` lines 6-8: a handler with
no parameters returning the literal `{"message": "ok"}`. -/
def health : Message :=
  { message := "ok" }


/-! ## Helper lemmas -/

lemma findByEmail_eq_none {db : DB} {email : String}
    (h : findByEmail db email = none) :
    ∀ u ∈ db, u.email ≠ email := by
  intro u hu
  have := List.find?_eq_none.mp h u hu
  simpa using this

lemma login_or_create_preserves_unique (db : DB) (newId : String) (now : Nat)
    (email name picture provider : String)
    (h : atMostOnePerEmail db) :
    atMostOnePerEmail (login_or_create db newId now email name picture provider).2 := by
  unfold login_or_create
  cases hf : findByEmail db email with
  | some u => simpa [atMostOnePerEmail] using h
  | none =>
      simp only [atMostOnePerEmail, List.pairwise_cons]
      refine ⟨?_, h⟩
      intro v hv heq
      exact findByEmail_eq_none hf v hv heq.symm

lemma applyUpsert_preserves_unique (db : DB) (op : UpsertOp)
    (h : atMostOnePerEmail db) : atMostOnePerEmail (applyUpsert db op) :=
  login_or_create_preserves_unique db op.newId op.now op.email op.name
    op.picture op.provider h

lemma findByEmail_cons_self (db : DB) (u : User) (email : String)
    (h : u.email = email) : findByEmail (u :: db) email = some u := by
  unfold findByEmail
  rw [List.find?_cons_of_pos _ (by simp [h])]

/-! ## Claim theorems -/

/-- C2: email uniqueness is an invariant of the user table preserved by every
operation of the flow — for any serialization of the atomic storage-level
upserts performed by completed OAuth callbacks (concurrent first-time
callbacks for the same email included, since any interleaving is some list
`ops`), at most one user row exists per email. -/
theorem email_unique_invariant (db : DB) (ops : List UpsertOp)
    (h : atMostOnePerEmail db) : atMostOnePerEmail (runUpserts db ops) := by
  induction ops generalizing db with
  | nil => exact h
  | cons op rest ih =>
      exact ih (applyUpsert db op) (applyUpsert_preserves_unique db op h)

/-- Witness for C2 at a concrete run: two first-time callbacks racing on the
same email leave a table satisfying the uniqueness invariant. -/
theorem email_unique_invariant_witness :
    atMostOnePerEmail ([] : DB) ∧
    atMostOnePerEmail (runUpserts []
      [⟨"a", 0, "u@x.io", "n", "p", "google"⟩,
       ⟨"b", 1, "u@x.io", "m", "q", "google"⟩]) :=
  ⟨by decide, email_unique_invariant []
    [⟨"a", 0, "u@x.io", "n", "p", "google"⟩,
     ⟨"b", 1, "u@x.io", "m", "q", "google"⟩] (by decide)⟩

/-- C3: a token issued for subject S and verified immediately (at the issuance
instant, before the fixed positive validity window elapses) passes signature
and expiry checks and returns S. -/
theorem issue_then_verify_returns_subject (secret window now : Nat)
    (sub : String) (h : 0 < window) :
    verify secret now (issue secret window now sub) = some sub := by
  have hlt : now < now + window := Nat.lt_add_of_pos_right h
  simp [verify, issue, hlt]

/-- Witness for C3 at a concrete subject and window. -/
theorem issue_then_verify_returns_subject_witness :
    0 < 30 ∧ verify 7 0 (issue 7 30 0 "42") = some "42" :=
  ⟨by decide, issue_then_verify_returns_subject 7 30 0 "42" (by decide)⟩

/-- C5: calling the upsert twice with the same email returns a user with the
same identifier both times, whatever the other fields, the generated
identifiers and the timestamps of the two calls are. -/
theorem upsert_twice_same_email_same_id (db : DB) (i1 i2 : String)
    (t1 t2 : Nat) (email n1 p1 pr1 n2 p2 pr2 : String) :
    (login_or_create (login_or_create db i1 t1 email n1 p1 pr1).2
        i2 t2 email n2 p2 pr2).1.id
      = (login_or_create db i1 t1 email n1 p1 pr1).1.id := by
  cases hf : findByEmail db email with
  | some u => simp [login_or_create, hf]
  | none => simp [login_or_create, hf, findByEmail_cons_self]

/-- C6: when the email is already present, a repeat upsert returns the stored
row itself and leaves the table unchanged; no field is updated. -/
theorem upsert_existing_row_unchanged (db : DB) (i : String) (t : Nat)
    (email n p pr : String) (u : User) (h : findByEmail db email = some u) :
    login_or_create db i t email n p pr = (u, db) := by
  simp [login_or_create, h]

/-- Witness for C6: a repeat login for a stored user returns that row and
does not touch the table. -/
theorem upsert_existing_row_unchanged_witness :
    findByEmail [⟨"a", "u@x.io", some "n", some "p", "google", 0⟩] "u@x.io"
        = some ⟨"a", "u@x.io", some "n", some "p", "google", 0⟩ ∧
    login_or_create [⟨"a", "u@x.io", some "n", some "p", "google", 0⟩]
        "b" 5 "u@x.io" "other" "pic" "google"
      = (⟨"a", "u@x.io", some "n", some "p", "google", 0⟩,
         [⟨"a", "u@x.io", some "n", some "p", "google", 0⟩]) :=
  ⟨by decide, upsert_existing_row_unchanged _ "b" 5 "u@x.io" "other" "pic"
    "google" _ (by decide)⟩

/-- C4: whenever any step of the `/auth/callback/google` path fails (token
exchange raises, access token missing or falsy, profile fetch raises, profile
lacks an email, upsert raises), the handler answers with a redirect to the
configured frontend login URL carrying an `error` query parameter — never
with a 500 or any other error-status response. -/
theorem callback_failure_redirects_to_login (f : Option String)
    (w : CallbackWorld) (db : DB) (h : callbackFails w = true) :
    (∃ e, (google_callback f w db).1
        = Response.redirect (frontendBase f ++ "/login?error=" ++ e)) ∧
    ∀ s d, (google_callback f w db).1 ≠ Response.error s d := by
  have main : ∃ e, (google_callback f w db).1
      = Response.redirect (frontendBase f ++ "/login?error=" ++ e) := by
    cases hat : w.authorizeAccessToken with
    | error e => exact ⟨e, by simp [google_callback, hat]⟩
    | ok tokenOpt =>
      cases tokenOpt with
      | none =>
          exact ⟨httpExceptionStr 400 "Failed to get access token",
            by simp [google_callback, hat]⟩
      | some t =>
        by_cases ht : t = ""
        · exact ⟨httpExceptionStr 400 "Failed to get access token",
            by simp [google_callback, hat, ht]⟩
        · cases hgi : w.googleUserInfo with
          | error e => exact ⟨e, by simp [google_callback, hat, ht, hgi]⟩
          | ok p =>
            cases hpe : p.email with
            | none =>
                exact ⟨keyErrorStr "email",
                  by simp [google_callback, hat, ht, hgi, hpe]⟩
            | some em =>
              have hue : w.upsertError.isSome := by
                simpa [callbackFails, hat, ht, hgi, hpe] using h
              cases hu : w.upsertError with
              | none => simp [hu] at hue
              | some e =>
                  exact ⟨e, by simp [google_callback, hat, ht, hgi, hpe, hu]⟩
  obtain ⟨e, he⟩ := main
  exact ⟨⟨e, he⟩, by simp [he]⟩

/-- Witness for C4: a callback whose token exchange raises is answered by a
redirect to the frontend login URL with an error parameter, not by an error
status. -/
theorem callback_failure_redirects_to_login_witness :
    (∃ e, (google_callback none
        ⟨.error "boom", .error "", none, "u", 0, 0, 0⟩ []).1
        = Response.redirect (frontendBase none ++ "/login?error=" ++ e)) ∧
    ∀ s d, (google_callback none
        ⟨.error "boom", .error "", none, "u", 0, 0, 0⟩ []).1
        ≠ Response.error s d :=
  callback_failure_redirects_to_login none
    ⟨.error "boom", .error "", none, "u", 0, 0, 0⟩ [] rfl

/-- C1 (code bug): the callback's broad exception handler interpolates the
caught exception's `str()` into the redirect URL — at a failing request whose
exception text is the OAuth library's CSRF-state message, the browser is
redirected with `error=` carrying that full internal exception text, so the
error query parameter does carry the caught exception's string
representation. -/
theorem callback_error_param_carries_exception_text :
    (google_callback none
      ⟨.error "mismatching_state: CSRF Warning! State not equal in request and response.",
       .error "", none, "u", 0, 0, 0⟩ []).1
      = Response.redirect
        "http://localhost:7010/login?error=mismatching_state: CSRF Warning! State not equal in request and response." := by
  decide

/-- C7: a request to `/auth/me` whose Authorization header is absent, does not
start with `Bearer `, or carries a token failing verification is answered
with HTTP 401, and no user row is returned. -/
theorem me_rejects_unauthorized (vtok : String → Option String) (db : DB)
    (ah : Option String)
    (h : ah = none ∨ ∃ s, ah = some s ∧
      (startsWith s "Bearer " = false ∨ vtok (bearerToken s) = none)) :
    (∃ d, get_current_user vtok db ah = Response.error 401 d) ∧
    ∀ u, get_current_user vtok db ah ≠ Response.ok u := by
  have main : ∃ d, get_current_user vtok db ah = Response.error 401 d := by
    rcases h with h | ⟨s, rfl, h⟩
    · exact ⟨"Missing or invalid authorization header", by simp [h, get_current_user]⟩
    · by_cases hc : s = "" ∨ ¬ startsWith s "Bearer " = true
      · refine ⟨"Missing or invalid authorization header", ?_⟩
        simp only [get_current_user]
        rw [if_pos hc]
      · push_neg at hc
        obtain ⟨hs, hsw⟩ := hc
        rcases h with h | h
        · simp [hsw] at h
        · exact ⟨"Invalid or expired token",
            by simp [get_current_user, hs, hsw, h]⟩
  obtain ⟨d, hd⟩ := main
  exact ⟨⟨d, hd⟩, by simp [hd]⟩

/-- Witness for C7: a request with no Authorization header gets a 401 and no
user payload. -/
theorem me_rejects_unauthorized_witness :
    (∃ d, get_current_user (fun _ => none) [] none = Response.error 401 d) ∧
    ∀ u, get_current_user (fun _ => none) [] none ≠ Response.ok u :=
  me_rejects_unauthorized (fun _ => none) [] none (Or.inl rfl)

/-- C8: a request to `/auth/me` carrying a `Bearer` token that verifies to a
(nonempty) subject identifier resolving to no stored user is answered with
HTTP 404. -/
theorem me_absent_user_not_found (vtok : String → Option String) (db : DB)
    (s uid : String) (hsw : startsWith s "Bearer " = true)
    (hv : vtok (bearerToken s) = some uid) (hne : uid ≠ "")
    (hfind : find_by_id db uid = none) :
    get_current_user vtok db (some s) = Response.error 404 "User not found" := by
  have hs : s ≠ "" := by
    intro hcon
    rw [hcon] at hsw
    exact absurd hsw (by decide)
  simp [get_current_user, hs, hsw, hv, hne, hfind]

/-- Witness for C8: a valid bearer token for an identifier absent from the
table yields a 404. -/
theorem me_absent_user_not_found_witness :
    startsWith "Bearer tok" "Bearer " = true ∧
    (fun _ : String => some "u9") (bearerToken "Bearer tok") = some "u9" ∧
    ("u9" : String) ≠ "" ∧
    find_by_id [] "u9" = none ∧
    get_current_user (fun _ => some "u9") [] (some "Bearer tok")
      = Response.error 404 "User not found" :=
  ⟨by decide, rfl, by decide, rfl,
   me_absent_user_not_found (fun _ => some "u9") [] "Bearer tok" "u9"
     (by decide) rfl (by decide) rfl⟩

/-- C9: the `/health` handler takes no inputs, reads no state, and returns
the constant body `{"message": "ok"}`. -/
theorem health_returns_ok : health = { message := "ok" } :=
  rfl

/-- C10: when the IdP profile omits `name` and `picture`, the callback passes
the empty string (via `user_info.get(key, '')`) to user creation, so the row
created for a first-time login stores `name` and `picture` as the non-null
empty string, not as an absent value. -/
theorem callback_missing_profile_fields_stored_as_empty (f : Option String)
    (db : DB) (accessToken email newId : String) (now secret window : Nat)
    (ht : accessToken ≠ "") (hfind : findByEmail db email = none) :
    ∃ u, (google_callback f
        ⟨.ok (some accessToken), .ok ⟨some email, none, none⟩, none,
         newId, now, secret, window⟩ db).2 = u :: db ∧
      u.name = some "" ∧ u.picture = some "" ∧
      u.name ≠ none ∧ u.picture ≠ none := by
  refine ⟨⟨newId, email, some "", some "", "google", now⟩, ?_, rfl, rfl,
    by simp, by simp⟩
  simp [google_callback, ht, login_or_create, hfind]

/-- Witness for C10: a concrete first-time callback whose profile lacks name
and picture stores the empty string in both fields. -/
theorem callback_missing_profile_fields_stored_as_empty_witness :
    ("t" : String) ≠ "" ∧ findByEmail [] "u@x.io" = none ∧
    ∃ u, (google_callback none
        ⟨.ok (some "t"), .ok ⟨some "u@x.io", none, none⟩, none,
         "id1", 5, 9, 30⟩ []).2 = u :: ([] : DB) ∧
      u.name = some "" ∧ u.picture = some "" ∧
      u.name ≠ none ∧ u.picture ≠ none :=
  ⟨by decide, rfl,
   callback_missing_profile_fields_stored_as_empty none [] "t" "u@x.io"
     "id1" 5 9 30 (by decide) rfl⟩
